import Mathlib

/-!
Verification development for the Telegram mini-app / Supabase gift API.

The repository contains several near-duplicate revisions of one serverless
handler (src/api/index.js and the three files under src/unnamed).  The
definitions below are shallow embeddings of the functions those revisions
implement: the Telegram `initData` HMAC verifier, the gift/task claim
eligibility checks, user registration, invite statistics and the ad-view
counter updates.  Bytes are modelled as `Nat` values below 256 and 32-bit
words as `Nat` values reduced modulo 2^32.
-/

/-! ## SHA-256 and HMAC-SHA256 over byte lists

`crypto.createHmac('sha256', …)` from the Node standard library (used by
`verifyTelegramInitData` in src/api/index.js) is modelled by a concrete,
executable implementation of FIPS 180-4 SHA-256 and RFC 2104 HMAC. -/

/-- Reduce a natural number to a 32-bit word. -/
def w32 (n : Nat) : Nat := n % 4294967296

/-- Right rotation of a 32-bit word by `n` bits. -/
def rotr32 (x n : Nat) : Nat := w32 ((x >>> n) + ((x % 2 ^ n) * 2 ^ (32 - n)))

/-- Bitwise complement of a 32-bit word. -/
def not32 (x : Nat) : Nat := x ^^^ 4294967295

/-- The 64 SHA-256 round constants (FIPS 180-4 §4.2.2), in decimal. -/
def shaK : List Nat :=
  [1116352408, 1899447441, 3049323471, 3921009573, 961987163,
   1508970993, 2453635748, 2870763221, 3624381080, 310598401,
   607225278, 1426881987, 1925078388, 2162078206, 2614888103,
   3248222580, 3835390401, 4022224774, 264347078, 604807628,
   770255983, 1249150122, 1555081692, 1996064986, 2554220882,
   2821834349, 2952996808, 3210313671, 3336571891, 3584528711,
   113926993, 338241895, 666307205, 773529912, 1294757372,
   1396182291, 1695183700, 1986661051, 2177026350, 2456956037,
   2730485921, 2820302411, 3259730800, 3345764771, 3516065817,
   3600352804, 4094571909, 275423344, 430227734, 506948616,
   659060556, 883997877, 958139571, 1322822218, 1537002063,
   1747873779, 1955562222, 2024104815, 2227730452, 2361852424,
   2428436474, 2756734187, 3204031479, 3329325298]

/-- Working state of the SHA-256 compression function. -/
structure ShaState where
  a : Nat
  b : Nat
  c : Nat
  d : Nat
  e : Nat
  f : Nat
  g : Nat
  h : Nat
deriving DecidableEq

/-- SHA-256 initial hash value (FIPS 180-4 §5.3.3), in decimal. -/
def shaInit : ShaState :=
  ⟨1779033703, 3144134277, 1013904242, 2773480762,
   1359893119, 2600822924, 528734635, 1541459225⟩

/-- One round of the SHA-256 compression function with round constant `k`
and message-schedule word `w`. -/
def shaRound (st : ShaState) (kw : Nat × Nat) : ShaState :=
  let s1 := (rotr32 st.e 6) ^^^ (rotr32 st.e 11) ^^^ (rotr32 st.e 25)
  let ch := (st.e &&& st.f) ^^^ ((not32 st.e) &&& st.g)
  let t1 := w32 (st.h + s1 + ch + kw.2 + kw.1)
  let s0 := (rotr32 st.a 2) ^^^ (rotr32 st.a 13) ^^^ (rotr32 st.a 22)
  let maj := (st.a &&& st.b) ^^^ (st.a &&& st.c) ^^^ (st.b &&& st.c)
  let t2 := w32 (s0 + maj)
  ⟨w32 (t1 + t2), st.a, st.b, st.c, w32 (st.d + t1), st.e, st.f, st.g⟩

/-- Interpret a byte list as big-endian 32-bit words. -/
def bytesToWords : List Nat → List Nat
  | a :: b :: c :: d :: rest =>
      (a * 16777216 + b * 65536 + c * 256 + d) :: bytesToWords rest
  | _ => []

/-- Extend a message-schedule prefix by one word. -/
def wExtendStep (w : List Nat) : List Nat :=
  let n := w.length
  let x15 := w.getD (n - 15) 0
  let x2 := w.getD (n - 2) 0
  let s0 := (rotr32 x15 7) ^^^ (rotr32 x15 18) ^^^ (x15 >>> 3)
  let s1 := (rotr32 x2 17) ^^^ (rotr32 x2 19) ^^^ (x2 >>> 10)
  w ++ [w32 (w.getD (n - 16) 0 + s0 + w.getD (n - 7) 0 + s1)]

/-- The full 64-word SHA-256 message schedule of one block. -/
def shaSchedule (block : List Nat) : List Nat :=
  (List.range 48).foldl (fun acc _ => wExtendStep acc) (bytesToWords block)

/-- Compress one 64-byte block into the running hash state. -/
def shaCompress (st : ShaState) (block : List Nat) : ShaState :=
  let r := ((shaSchedule block).zip shaK).foldl shaRound st
  ⟨w32 (st.a + r.a), w32 (st.b + r.b), w32 (st.c + r.c), w32 (st.d + r.d),
   w32 (st.e + r.e), w32 (st.f + r.f), w32 (st.g + r.g), w32 (st.h + r.h)⟩

/-- SHA-256 padding: append `0x80`, zeros and the 64-bit big-endian bit
length so the total length is a multiple of 64 bytes. -/
def shaPad (msg : List Nat) : List Nat :=
  let l := msg.length
  let zeros := (64 + 55 - l % 64) % 64
  let bitLen := 8 * l
  msg ++ [0x80] ++ List.replicate zeros 0 ++
    [bitLen >>> 56 % 256, bitLen >>> 48 % 256, bitLen >>> 40 % 256,
     bitLen >>> 32 % 256, bitLen >>> 24 % 256, bitLen >>> 16 % 256,
     bitLen >>> 8 % 256, bitLen % 256]

/-- Split a byte list into 64-byte chunks (fuel-driven so the recursion is
structural and kernel-reducible; `fuel = l.length` always suffices). -/
def chunks64Go : Nat → List Nat → List (List Nat)
  | 0, _ => []
  | _, [] => []
  | fuel + 1, l => l.take 64 :: chunks64Go fuel (l.drop 64)

/-- Split a byte list into 64-byte chunks. -/
def chunks64 (l : List Nat) : List (List Nat) := chunks64Go l.length l

/-- Serialize the final state as 32 big-endian digest bytes. -/
def shaDigestBytes (st : ShaState) : List Nat :=
  ([st.a, st.b, st.c, st.d, st.e, st.f, st.g, st.h]).flatMap
    (fun w => [w >>> 24 % 256, w >>> 16 % 256, w >>> 8 % 256, w % 256])

/-- SHA-256 of a byte list. -/
def sha256 (msg : List Nat) : List Nat :=
  shaDigestBytes (((chunks64 (shaPad msg))).foldl shaCompress shaInit)

/-- HMAC-SHA256 (RFC 2104) of `msg` under `key`, both byte lists. -/
def hmacSha256 (key msg : List Nat) : List Nat :=
  let k0 := if 64 < key.length then sha256 key else key
  let k := k0 ++ List.replicate (64 - k0.length) 0
  sha256 ((k.map (fun b => b ^^^ 0x5c)) ++ sha256 ((k.map (fun b => b ^^^ 0x36)) ++ msg))

/-- Lowercase hexadecimal digit. -/
def hexChar (n : Nat) : Char :=
  if n < 10 then Char.ofNat (48 + n) else Char.ofNat (87 + n)

/-- Lowercase hexadecimal rendering of a byte list, as produced by
Node's `digest('hex')`. -/
def hexOfBytes (bs : List Nat) : List Char :=
  bs.flatMap (fun b => [hexChar (b / 16), hexChar (b % 16)])

/-- UTF-8 encoding of one code point. -/
def utf8Char (n : Nat) : List Nat :=
  if n < 0x80 then [n]
  else if n < 0x800 then
    [0xC0 ||| (n >>> 6), 0x80 ||| (n &&& 0x3F)]
  else if n < 0x10000 then
    [0xE0 ||| (n >>> 12), 0x80 ||| ((n >>> 6) &&& 0x3F), 0x80 ||| (n &&& 0x3F)]
  else
    [0xF0 ||| (n >>> 18), 0x80 ||| ((n >>> 12) &&& 0x3F),
     0x80 ||| ((n >>> 6) &&& 0x3F), 0x80 ||| (n &&& 0x3F)]

/-- UTF-8 encoding of a character list. -/
def utf8 (s : List Char) : List Nat :=
  (s.map (fun c => utf8Char c.toNat)).flatten

set_option maxRecDepth 4096

/-! ## URL query-string parsing

Model of `new URLSearchParams(initData)` as used by
`verifyTelegramInitData` (src/api/index.js lines 17-37 and 281-339):
strip one leading `?`, split on `&`, skip empty segments, split each
segment at its first `=`, percent-decode names and values with `+`
turned into a space. -/

/-- Split a character list on a separator character. -/
def splitOnChar (sep : Char) : List Char → List (List Char)
  | [] => [[]]
  | c :: rest =>
    let r := splitOnChar sep rest
    if c = sep then [] :: r
    else
      match r with
      | [] => [[c]]
      | s :: ss => (c :: s) :: ss

/-- Split a segment at its first `=`; a segment without `=` is a name
with an empty value. -/
def splitEq : List Char → List Char × List Char
  | [] => ([], [])
  | '=' :: rest => ([], rest)
  | c :: rest =>
    let (k, v) := splitEq rest
    (c :: k, v)

/-- Value of a hexadecimal digit, if any. -/
def hexVal (c : Char) : Option Nat :=
  if '0' ≤ c ∧ c ≤ '9' then some (c.toNat - 48)
  else if 'a' ≤ c ∧ c ≤ 'f' then some (c.toNat - 87)
  else if 'A' ≤ c ∧ c ≤ 'F' then some (c.toNat - 55)
  else none

/-- Percent-decoding of one query segment: `+` becomes a space and
`%XY` with hex digits becomes the character with code `0xXY`; malformed
escapes are kept verbatim. -/
def decodeSeg : List Char → List Char
  | [] => []
  | '+' :: rest => ' ' :: decodeSeg rest
  | '%' :: a :: b :: rest =>
    match hexVal a, hexVal b with
    | some x, some y => Char.ofNat (16 * x + y) :: decodeSeg rest
    | _, _ => '%' :: decodeSeg (a :: b :: rest)
  | c :: rest => c :: decodeSeg rest

/-- The ordered key/value entries of a URL query string. -/
def parseQueryChars (s : List Char) : List (List Char × List Char) :=
  let s' := match s with
    | '?' :: rest => rest
    | _ => s
  ((splitOnChar '&' s').filter (fun seg => !(seg == []))).map
    (fun seg =>
      let (k, v) := splitEq seg
      (decodeSeg k, decodeSeg v))

/-- First value stored under `key`, as `URLSearchParams.get` returns it. -/
def firstVal (key : List Char) (entries : List (List Char × List Char)) :
    Option (List Char) :=
  match entries.find? (fun p => p.1 == key) with
  | some p => some p.2
  | none => none

/-! ## The Telegram initData verifier -/

/-- Code-unit lexicographic order on keys.  The source sorts with
`a[0].localeCompare(b[0])`; for the ASCII key names Telegram initData
carries, default-locale collation and code-unit order coincide, and the
embedding uses the code-unit order. -/
def lexLe : List Char → List Char → Bool
  | [], _ => true
  | _ :: _, [] => false
  | a :: as, b :: bs =>
    if a.toNat < b.toNat then true
    else if b.toNat < a.toNat then false
    else lexLe as bs

/-- Stable sort of query entries by key, modelling
`params.sort((a, b) => a[0].localeCompare(b[0]))`. -/
def sortEntries (entries : List (List Char × List Char)) :
    List (List Char × List Char) :=
  entries.insertionSort (fun p q => lexLe p.1 q.1)

/-- Join lines with a newline separator, modelling `.join('\n')`. -/
def joinNL : List (List Char) → List Char
  | [] => []
  | [x] => x
  | x :: rest => x ++ '\n' :: joinNL rest

/-- The canonical data-check string: remaining entries sorted by key and
rendered as `key=value` lines. -/
def dataCheckString (entries : List (List Char × List Char)) : List Char :=
  joinNL ((sortEntries entries).map (fun p => p.1 ++ '=' :: p.2))

/-- `verifyTelegramInitData` from src/api/index.js (lines 17-37): parse
`initData`, take the first `hash` value, drop every `hash` entry, sort the
rest by key, join as `key=value` lines, and compare the lowercase hex
HMAC-SHA256 under `secret = HMAC-SHA256(key = "WebAppData", msg = token)`
against the extracted hash.  A missing hash makes the final `===` compare
a string with `null`, i.e. the result is `false`. -/
def verifyTelegramInitData (initData token : String) : Bool :=
  if initData = "" then false
  else
    let entries := parseQueryChars initData.data
    let hash := firstVal "hash".data entries
    let rest := entries.filter (fun p => !(p.1 == "hash".data))
    let calculated := hexOfBytes (hmacSha256
      (hmacSha256 (utf8 "WebAppData".data) (utf8 token.data))
      (utf8 (dataCheckString rest)))
    match hash with
    | none => false
    | some h => calculated == h

/-- The specification's reading of the verifier: verification succeeds
iff the parsed query contains a `hash` field whose value equals the
lowercase hex HMAC-SHA256 of the canonical check-string (remaining pairs
sorted by key, joined as `key=value` lines) under
`secretKey = HMAC-SHA256(key = "WebAppData", message = botToken)`; with
no `hash` field, verification fails. -/
def specVerifyInitData (initData token : String) : Bool :=
  let entries := parseQueryChars initData.data
  match firstVal "hash".data entries with
  | none => false
  | some h =>
      h == hexOfBytes (hmacSha256
        (hmacSha256 (utf8 "WebAppData".data) (utf8 token.data))
        (utf8 (dataCheckString (entries.filter (fun p => !(p.1 == "hash".data))))))

/-! ## Claim eligibility (src/unnamed/part_000, handler lines 245-375)

The `claim` branch reads, for a (user, gift) pair, the newest prior claim
row, the accumulated `ad_view` count and the invite statistics, and
rejects in order on cooldown, ad views and invites.  The snapshot below
holds exactly the values those three store reads produce. -/

/-- Store snapshot consumed by the `claim` branch: `lastClaimAt` is the
`updated_at` of the newest `claim` row in epoch milliseconds (`none` when
no row exists), `adViews` is the computed `views` count after the
`|| 0` coalescing, and `activeInvites` is `stats[0].active` (`none` when
the RPC returned no row or the field is missing). -/
structure ClaimSnapshot where
  lastClaimAt : Option Int
  adViews : Nat
  activeInvites : Option Nat
deriving DecidableEq

/-- Outcome of the `claim` branch, carrying what the JSON response
carries: `insufficientAdViews` holds the number in the
`Need ${required} ad views` message. -/
inductive ClaimResult
  | giftRequired
  | cooldownActive
  | insufficientAdViews (required : Nat)
  | insufficientInvites
  | claimed
deriving DecidableEq

/-- Per-kind ad-view thresholds:
`{ bear: 200, heart: 250, box: 350, rose: 350 }[gift] || 200`. -/
def requiredViews (gift : String) : Nat :=
  if gift = "bear" then 200
  else if gift = "heart" then 250
  else if gift = "box" then 350
  else if gift = "rose" then 350
  else 200

/-- The 48-hour cooldown window in milliseconds. -/
def cooldownMs : Int := 48 * 3600000

/-- `if (last && last.length) { const diffHours = (now - lastDate) / (1000*60*60);
if (diffHours < 48) … }`: a prior claim younger than 48 hours blocks.  The
float comparison `diffHours < 48` is exact at these magnitudes, so it is
modelled as `now - t < 48h` over integer milliseconds. -/
def cooldownBlocked (lastClaimAt : Option Int) (now : Int) : Bool :=
  match lastClaimAt with
  | none => false
  | some t => now - t < cooldownMs

/-- `if (!stats?.[0]?.active || stats[0].active < 10)`: missing stats or a
falsy (zero) active count rejects, as does an active count below 10. -/
def invitesInsufficient (activeInvites : Option Nat) : Bool :=
  match activeInvites with
  | none => true
  | some a => a == 0 || a < 10

/-- The `claim` branch of the handler in src/unnamed/part_000
(lines 305-344): reject on missing gift, then cooldown, then ad views
(`views < required`), then invites; otherwise record the claim. -/
def evaluateClaim (gift : String) (now : Int) (s : ClaimSnapshot) : ClaimResult :=
  if gift = "" then .giftRequired
  else if cooldownBlocked s.lastClaimAt now then .cooldownActive
  else if s.adViews < requiredViews gift then .insufficientAdViews (requiredViews gift)
  else if invitesInsufficient s.activeInvites then .insufficientInvites
  else .claimed

/-- HTTP status the handler attaches to each `claim` outcome: every
rejection is a 400, a recorded claim is a 200. -/
def claimStatus : ClaimResult → Nat
  | .claimed => 200
  | _ => 400

/-! ## Task claims (src/unnamed/part_000, lines 347-366) -/

/-- Snapshot for the `claim-task` branch.  `priorTaskClaims` counts the
`task_claim` rows already recorded for this (user, task); no code path of
the branch reads it — it exists so that idempotency is expressible. -/
structure TaskSnapshot where
  activeInvites : Option Nat
  priorTaskClaims : Nat
deriving DecidableEq

/-- Outcome of the `claim-task` branch.  `alreadyClaimed` is the
rejection the specification mandates for a repeat claim; the handler
never produces it. -/
inductive TaskResult
  | taskRequired
  | insufficientInvites
  | alreadyClaimed
  | rewarded
  | unknownTask
deriving DecidableEq

/-- The `claim-task` branch: reject on missing task, handle only `bear`
(checking ≥ 10 active invites, then recording `task_claim` with `+1`),
reject any other task as unknown.  It performs no cooldown read, no
ad-view read, and no lookup of prior task claims. -/
def evaluateClaimTask (task : String) (s : TaskSnapshot) : TaskResult :=
  if task = "" then .taskRequired
  else if task = "bear" then
    if invitesInsufficient s.activeInvites then .insufficientInvites
    else .rewarded
  else .unknownTask

/-- HTTP status of each `claim-task` outcome. -/
def taskStatus : TaskResult → Nat
  | .rewarded => 200
  | _ => 400

/-! ## initData gating of claim and register
(src/api/index.js, async revision, lines 388-542) -/

/-- Outcome of the security check at the top of `claimGift`, `claimTask`
and `watchAd`. -/
inductive AuthResult
  | invalidSession
  | proceed
deriving DecidableEq

/-- `if (!botToken || !(await verifyTelegramInitData(initData, botToken)))
return { ok: false, error: 'Invalid Telegram Session (initData)', status: 403 }`
(src/api/index.js lines 482-485, likewise 451-454 and 522-525).  `none`
models an unset (or empty, hence falsy) `BOT_TOKEN`. -/
def claimGiftAuth (botToken : Option String) (initData : String) : AuthResult :=
  match botToken with
  | none => .invalidSession
  | some tk => if verifyTelegramInitData initData tk then .proceed else .invalidSession

/-- Outcome of the registration-time verification attempt
(src/api/index.js lines 391-401): registration continues either way, the
failing path only logs a warning. -/
inductive RegisterAuth
  | proceedVerified
  | proceedWarned
deriving DecidableEq

/-- `if (!botToken || !(await verifyTelegramInitData(payload.initData, botToken)))
{ console.warn(…) }` — then registration proceeds unconditionally. -/
def registerUserAuth (botToken : Option String) (initData : String) : RegisterAuth :=
  match botToken with
  | none => .proceedWarned
  | some tk => if verifyTelegramInitData initData tk then .proceedVerified else .proceedWarned

/-! ## Registration (src/api/index.js lines 69-105 / 388-428)

The store is reduced to the list of `user_id` values in `telegram.log`;
the GET existence check returns the rows whose `user_id` matches, and the
POST appends a row. -/

/-- Rows of `telegram.log`, by `user_id`. -/
structure RegState where
  rows : List String
deriving DecidableEq

/-- Response of the register handler. -/
inductive RegResult
  | userIdRequired
  | alreadyExists
  | created
deriving DecidableEq

/-- `registerUser`: reject a missing `userId`, answer
`already exists` (success) when the existence check returns a row, and
insert otherwise. -/
def registerUser (st : RegState) (userId : String) : RegResult × RegState :=
  if userId = "" then (.userIdRequired, st)
  else if st.rows.contains userId then (.alreadyExists, st)
  else (.created, ⟨st.rows ++ [userId]⟩)

/-- `res.ok` of each register response; the handler maps it to
HTTP 200/400. -/
def regOk : RegResult → Bool
  | .userIdRequired => false
  | .alreadyExists => true
  | .created => true

/-! ## Invite statistics

Two revisions are embedded: the derived computation over referred users
(src/unnamed/part_001, `invite-stats` branch lines 207-234) and the
stored-columns read of src/api/index.js `getInviteStats`
(lines 431-447). -/

/-- A user row returned by `ref_by=eq.userId`: `isActive` is `some b`
when the `is_active` column is defined, with `b = true` exactly for the
values `true`, `'t'` and `'true'` the code accepts; `createdAt` is the
`created_at` timestamp in epoch milliseconds when present. -/
structure RefUser where
  isActive : Option Bool
  createdAt : Option Int
deriving DecidableEq

/-- One day in milliseconds. -/
def dayMs : Nat := 86400000

/-- `Math.round(Math.abs((now - created) / dayMs))` — round half up on
the non-negative quotient. -/
def roundedDays (now created : Int) : Nat :=
  (2 * (now - created).natAbs + dayMs) / (2 * dayMs)

/-- The activity predicate of the `invite-stats` branch: an explicit
`is_active` flag wins; otherwise accounts whose rounded age is at least
2 days count as active; rows with neither field do not count. -/
def refUserActive (now : Int) (u : RefUser) : Bool :=
  match u.isActive with
  | some b => b
  | none =>
    match u.createdAt with
    | some c => 2 ≤ roundedDays now c
    | none => false

/-- The `invite-stats` response of src/unnamed/part_001:
`total` is the number of returned rows, `active` the number satisfying
the activity predicate, `pending = total - active`. -/
def inviteStats (now : Int) (rows : List RefUser) : Nat × Nat × Nat :=
  let total := rows.length
  let active := (rows.filter (refUserActive now)).length
  let pending := total - active
  (total, active, pending)

/-- Result of the `telegram.log` read in `getInviteStats`: `fetchErr`
covers `!ok` and non-array data. -/
inductive FetchResult (α : Type)
  | fetchErr
  | fetchOk (rows : List α)
deriving DecidableEq

/-- A `telegram.log` row restricted to the selected invite columns; a
`none` field models SQL `NULL` (falsy, coalesced by `|| 0`). -/
structure InviteRow where
  invitesTotal : Option Int
  invitesActive : Option Int
  invitesPending : Option Int
deriving DecidableEq

/-- `row.x || 0`. -/
def orZero : Option Int → Int
  | none => 0
  | some v => v

/-- `getInviteStats` of src/api/index.js (lines 431-447): a missing
`userId`, a failed fetch or an empty row set all yield
`{ total: 0, active: 0, pending: 0 }`; otherwise the first row's
columns are returned with `|| 0` coalescing. -/
def getInviteStats (userId : String) (res : FetchResult InviteRow) :
    Int × Int × Int :=
  if userId = "" then (0, 0, 0)
  else
    match res with
    | .fetchErr => (0, 0, 0)
    | .fetchOk [] => (0, 0, 0)
    | .fetchOk (r :: _) =>
      (orZero r.invitesTotal, orZero r.invitesActive, orZero r.invitesPending)

/-- The handler wraps every `invite-stats` response with HTTP 200
(`case 'invite-stats': … status = 200`). -/
def inviteStatsStatus : Nat := 200

/-! ## Ad-view counter updates

Two layouts exist in the corpus.  In the `telegram.log` wide-row
revisions, `watchAd` (src/api/index.js lines 450-478, likewise
src/unnamed/part_002 lines 119-141) *decrements* the `ads_<gift>` column
through `PATCH …&ads_<gift>=gt.0` with `ads_<gift> = ads_<gift> - 1`: the
filter guards the decrement so only rows with a positive counter are
touched.  In the `gifts`/`ad_views` revisions the `watch-ad` branch
(src/unnamed/part_000 lines 289-302, src/unnamed/part_001 lines 83-108)
records one more view. -/

/-- Effect of `watchAd` on the `ads_<gift>` column in the `telegram.log`
revisions: rows matching `ads_<gift> > 0` get `ads_<gift> - 1`, other
rows are untouched. -/
def watchAdTelegramLog (ads : Int) : Int :=
  if 0 < ads then ads - 1 else ads

/-- Modelled from the spec: the body of the `upsert_gift_action` RPC
(invoked with `p_action: 'ad_view', p_inc: 1`) is not in the repository;
per the specification, AdViewCounter rows are created lazily on first ad
view and incremented thereafter, so the call adds 1 to the accumulated
view count. -/
def watchAdViews (views : Nat) : Nat := views + 1

/-- SHA-256 test vector: the digest of `"abc"`. -/
example :
    hexOfBytes (sha256 (utf8 "abc".data)) =
      "ba7816bf8f01cfea414140de5dae2223b00361a396177a9cb410ff61f20015ad".data := by
  decide


/-- Boolean equality on character lists is symmetric. -/
theorem listCharBeqComm (a b : List Char) : (a == b) = (b == a) := by
  by_cases h : a = b
  · subst h; rfl
  · rw [beq_eq_false_iff_ne.mpr h, beq_eq_false_iff_ne.mpr (Ne.symm h)]


/-- A correctly signed initData (hash computed with
`secret = HMAC-SHA256("WebAppData", "test_token")` over
`"auth_date=1\nuser=abc"`) verifies. -/
example :
    verifyTelegramInitData
      "user=abc&auth_date=1&hash=5758412db8345d6e05e9403b3426f468841f98b036361b274d3144b6c7ce6358"
      "test_token" = true := by
  decide

/-- Tampering with a field of the signed payload makes verification fail. -/
example :
    verifyTelegramInitData
      "user=abd&auth_date=1&hash=5758412db8345d6e05e9403b3426f468841f98b036361b274d3144b6c7ce6358"
      "test_token" = false := by
  decide

/-- C1: for every initData string and bot token,
`verifyTelegramInitData` returns true iff the query contains a `hash`
field equal to the lowercase hex HMAC-SHA256 of the canonical
check-string (remaining pairs sorted by key, joined as `key=value` lines
with newlines) keyed by `HMAC-SHA256("WebAppData", botToken)`; in
particular, with no `hash` field verification fails. -/
theorem verifyTelegramInitData_matches_spec (d t : String) :
    verifyTelegramInitData d t = specVerifyInitData d t ∧
    (firstVal "hash".data (parseQueryChars d.data) = none →
      verifyTelegramInitData d t = false) := by
  constructor
  · by_cases hd : d = ""
    · subst hd
      have hnone : firstVal "hash".data (parseQueryChars "".data) = none := by decide
      simp [verifyTelegramInitData, specVerifyInitData, hnone]
    · simp only [verifyTelegramInitData, specVerifyInitData, if_neg hd]
      cases hfv : firstVal "hash".data (parseQueryChars d.data) with
      | none => simp [hfv]
      | some h => simp [hfv, listCharBeqComm]
  · intro hfv
    by_cases hd : d = ""
    · simp [verifyTelegramInitData, hd]
    · simp [verifyTelegramInitData, if_neg hd, hfv]

/-- Witness for C1 at a concrete hash-free input. -/
theorem verifyTelegramInitData_matches_spec_witness :
    verifyTelegramInitData "a=1" "x" = specVerifyInitData "a=1" "x" ∧
    verifyTelegramInitData "a=1" "x" = false :=
  ⟨(verifyTelegramInitData_matches_spec "a=1" "x").1,
   (verifyTelegramInitData_matches_spec "a=1" "x").2 (by decide)⟩

/-- `invitesInsufficient` on a present count is exactly `a < 10`. -/
theorem invitesInsufficient_some (a : Nat) :
    invitesInsufficient (some a) = decide (a < 10) := by
  simp [invitesInsufficient]
  omega

/-- C2: with a prior claim for the (user, gift) pair, a claim strictly
inside the 48-hour window is rejected as `CooldownActive` with HTTP 400
and no grant occurs, while a prior claim at least 48 hours old passes the
cooldown check. -/
theorem claim_cooldown_window (gift : String) (now t : Int) (views : Nat)
    (inv : Option Nat) (hg : gift ≠ "") :
    (now - t < cooldownMs →
      evaluateClaim gift now ⟨some t, views, inv⟩ = .cooldownActive ∧
      claimStatus (evaluateClaim gift now ⟨some t, views, inv⟩) = 400 ∧
      evaluateClaim gift now ⟨some t, views, inv⟩ ≠ .claimed) ∧
    (cooldownMs ≤ now - t →
      evaluateClaim gift now ⟨some t, views, inv⟩ ≠ .cooldownActive) := by
  constructor
  · intro h
    have hb : cooldownBlocked (some t) now = true := by
      simp [cooldownBlocked]
      exact h
    simp [evaluateClaim, hg, hb, claimStatus]
  · intro h
    have hb : cooldownBlocked (some t) now = false := by
      simp [cooldownBlocked]
      omega
    simp [evaluateClaim, hg, hb]
    split
    · simp
    · split <;> simp

/-- Witness for C2: a 47-hour-old claim is blocked, a 49-hour-old claim
passes the cooldown check. -/
theorem claim_cooldown_window_witness :
    evaluateClaim "bear" (47 * 3600000) ⟨some 0, 0, none⟩ = .cooldownActive ∧
    evaluateClaim "bear" (49 * 3600000) ⟨some 0, 200, some 12⟩ ≠ .cooldownActive :=
  ⟨((claim_cooldown_window "bear" (47 * 3600000) 0 0 none (by decide)).1 (by decide)).1,
   (claim_cooldown_window "bear" (49 * 3600000) 0 200 (some 12) (by decide)).2 (by decide)⟩

/-- C3 counterexample: with 199 ad views toward `bear` (required 200,
deficit 1), the rejection carries 200 — the required total embedded in
the `Need 200 ad views` message — and not the deficit 1. -/
theorem claim_adviews_counterexample :
    evaluateClaim "bear" 0 ⟨none, 199, some 12⟩ = .insufficientAdViews 200 ∧
    (200 : Nat) ≠ 200 - 199 := by
  decide

/-- C3 (amended): with the cooldown check passed, a view count strictly
below the per-kind threshold `{bear: 200, heart: 250, box: 350, rose: 350,
default 200}` is rejected as `InsufficientAdViews` (HTTP 400) reporting
the required threshold, and a count at or above the threshold passes the
ad-view check. -/
theorem claim_adviews_threshold (gift : String) (now : Int) (last : Option Int)
    (views : Nat) (inv : Option Nat) (hg : gift ≠ "")
    (hcool : cooldownBlocked last now = false) :
    (views < requiredViews gift →
      evaluateClaim gift now ⟨last, views, inv⟩ = .insufficientAdViews (requiredViews gift) ∧
      claimStatus (evaluateClaim gift now ⟨last, views, inv⟩) = 400) ∧
    (requiredViews gift ≤ views →
      ∀ r, evaluateClaim gift now ⟨last, views, inv⟩ ≠ .insufficientAdViews r) := by
  constructor
  · intro h
    simp [evaluateClaim, hg, hcool, h, claimStatus]
  · intro h r
    have hv : ¬ views < requiredViews gift := by omega
    simp [evaluateClaim, hg, hcool, hv]
    split <;> simp

/-- Witness for C3's amended statement at `bear`, 199 and 200 views. -/
theorem claim_adviews_threshold_witness :
    evaluateClaim "bear" 0 ⟨none, 199, some 12⟩ = .insufficientAdViews 200 ∧
    evaluateClaim "bear" 0 ⟨none, 200, some 12⟩ ≠ .insufficientAdViews 200 :=
  ⟨((claim_adviews_threshold "bear" 0 none 199 (some 12) (by decide) (by decide)).1
      (by decide)).1,
   (claim_adviews_threshold "bear" 0 none 200 (some 12) (by decide) (by decide)).2
      (by decide) 200⟩

/-- C4: with the earlier checks passed, an active-invite count strictly
below 10 rejects both `claim` and `claim-task` with
`InsufficientInvites`, and a count of at least 10 passes the invite
check of both. -/
theorem invite_sufficiency (gift : String) (now : Int) (last : Option Int)
    (views a p : Nat) (hg : gift ≠ "")
    (hcool : cooldownBlocked last now = false)
    (hviews : requiredViews gift ≤ views) :
    (a < 10 →
      evaluateClaim gift now ⟨last, views, some a⟩ = .insufficientInvites ∧
      evaluateClaimTask "bear" ⟨some a, p⟩ = .insufficientInvites) ∧
    (10 ≤ a →
      evaluateClaim gift now ⟨last, views, some a⟩ = .claimed ∧
      evaluateClaimTask "bear" ⟨some a, p⟩ = .rewarded) := by
  have hv : ¬ views < requiredViews gift := by omega
  constructor
  · intro h
    have hi : invitesInsufficient (some a) = true := by
      rw [invitesInsufficient_some]
      simpa using h
    simp [evaluateClaim, evaluateClaimTask, hg, hcool, hv, hi]
  · intro h
    have hi : invitesInsufficient (some a) = false := by
      rw [invitesInsufficient_some]
      simpa using by omega
    simp [evaluateClaim, evaluateClaimTask, hg, hcool, hv, hi]

/-- Witness for C4 at 9 and 10 active invites. -/
theorem invite_sufficiency_witness :
    (evaluateClaim "bear" 0 ⟨none, 200, some 9⟩ = .insufficientInvites ∧
      evaluateClaimTask "bear" ⟨some 9, 0⟩ = .insufficientInvites) ∧
    (evaluateClaim "bear" 0 ⟨none, 200, some 10⟩ = .claimed ∧
      evaluateClaimTask "bear" ⟨some 10, 0⟩ = .rewarded) :=
  ⟨(invite_sufficiency "bear" 0 none 200 9 0 (by decide) (by decide) (by decide)).1
      (by decide),
   (invite_sufficiency "bear" 0 none 200 10 0 (by decide) (by decide) (by decide)).2
      (by decide)⟩

/-- C5 counterexample: a `claim-task` request for `bear` by a user who
already holds a prior task claim and has 10 active invites is granted
again (the reward is recorded once more), not rejected with
`AlreadyClaimed`. -/
theorem claimTask_counterexample :
    evaluateClaimTask "bear" ⟨some 10, 1⟩ = .rewarded ∧
    evaluateClaimTask "bear" ⟨some 10, 1⟩ ≠ .alreadyClaimed := by
  decide

/-- C5 (amended): `claim-task` applies the ≥ 10 active-invite check and
consults neither ad views nor cooldown, but it is not idempotent: its
outcome is independent of any prior task claims, so a repeat claim that
passes the invite check is granted again and `AlreadyClaimed` is never
produced. -/
theorem claimTask_not_idempotent (a p p' : Nat) (ha : 10 ≤ a) :
    evaluateClaimTask "bear" ⟨some a, p⟩ = .rewarded ∧
    (∀ task inv, evaluateClaimTask task ⟨inv, p⟩ = evaluateClaimTask task ⟨inv, p'⟩) ∧
    (∀ task s, evaluateClaimTask task s ≠ .alreadyClaimed) := by
  refine ⟨?_, fun task inv => rfl, ?_⟩
  · have hi : invitesInsufficient (some a) = false := by
      rw [invitesInsufficient_some]
      simpa using by omega
    simp [evaluateClaimTask, hi]
  · intro task s
    simp only [evaluateClaimTask]
    split
    · simp
    · split
      · split <;> simp
      · simp

/-- Witness for C5's amended statement. -/
theorem claimTask_not_idempotent_witness :
    evaluateClaimTask "bear" ⟨some 10, 5⟩ = .rewarded ∧
    evaluateClaimTask "bear" ⟨some 10, 5⟩ = evaluateClaimTask "bear" ⟨some 10, 0⟩ ∧
    evaluateClaimTask "bear" ⟨some 10, 5⟩ ≠ .alreadyClaimed :=
  ⟨(claimTask_not_idempotent 10 5 0 (by decide)).1,
   (claimTask_not_idempotent 10 5 0 (by decide)).2.1 "bear" (some 10),
   (claimTask_not_idempotent 10 5 0 (by decide)).2.2 "bear" ⟨some 10, 5⟩⟩

/-- C6 counterexample: with the bot token unconfigured, `claimGift`
rejects with exactly the same `Invalid Telegram Session (initData)` /
403 result an ordinary verification failure produces, and `registerUser`
proceeds just as it does on a verification failure — no distinct
configuration-error condition is surfaced. -/
theorem missing_token_counterexample :
    claimGiftAuth none "user=1" = .invalidSession ∧
    claimGiftAuth (some "tok") "user=1" = .invalidSession ∧
    claimGiftAuth none "user=1" = claimGiftAuth (some "tok") "user=1" ∧
    registerUserAuth none "user=1" = .proceedWarned ∧
    registerUserAuth (some "tok") "user=1" = .proceedWarned := by
  decide

/-- C6 (amended): a missing bot token is not surfaced as a distinct
condition — claim-type handlers reject it with the ordinary
verification-failure result, and register proceeds with only a logged
warning, exactly as on a verification failure. -/
theorem missing_token_behavior (initData : String) :
    claimGiftAuth none initData = .invalidSession ∧
    (∀ tk, verifyTelegramInitData initData tk = false →
      claimGiftAuth (some tk) initData = .invalidSession) ∧
    registerUserAuth none initData = .proceedWarned ∧
    (∀ tk, verifyTelegramInitData initData tk = false →
      registerUserAuth (some tk) initData = .proceedWarned) := by
  refine ⟨rfl, ?_, rfl, ?_⟩ <;> intro tk h <;> simp [claimGiftAuth, registerUserAuth, h]

/-- Witness for C6's amended statement at a hash-free initData. -/
theorem missing_token_behavior_witness :
    claimGiftAuth none "user=1" = .invalidSession ∧
    claimGiftAuth (some "t") "user=1" = .invalidSession ∧
    registerUserAuth none "user=1" = .proceedWarned ∧
    registerUserAuth (some "t") "user=1" = .proceedWarned :=
  ⟨(missing_token_behavior "user=1").1,
   (missing_token_behavior "user=1").2.1 "t" (by decide),
   (missing_token_behavior "user=1").2.2.1,
   (missing_token_behavior "user=1").2.2.2 "t" (by decide)⟩

/-- C7: registration is idempotent — after any first register call for a
non-empty identifier (which succeeds), a second register call for the
same identifier returns the `already exists` success, is reported `ok`,
and leaves the store unchanged: no second row is created. -/
theorem register_idempotent (st : RegState) (u : String) (hu : u ≠ "") :
    regOk (registerUser st u).1 = true ∧
    (registerUser (registerUser st u).2 u).1 = .alreadyExists ∧
    regOk (registerUser (registerUser st u).2 u).1 = true ∧
    (registerUser (registerUser st u).2 u).2 = (registerUser st u).2 := by
  by_cases hc : u ∈ st.rows
  · simp [registerUser, hu, hc, regOk]
  · have hc2 : u ∈ st.rows ++ [u] := by simp
    simp [registerUser, hu, hc, hc2, regOk]

/-- Witness for C7 on an empty store. -/
theorem register_idempotent_witness :
    regOk (registerUser ⟨[]⟩ "7").1 = true ∧
    (registerUser (registerUser ⟨[]⟩ "7").2 "7").1 = .alreadyExists ∧
    regOk (registerUser (registerUser ⟨[]⟩ "7").2 "7").1 = true ∧
    (registerUser (registerUser ⟨[]⟩ "7").2 "7").2 = (registerUser ⟨[]⟩ "7").2 :=
  register_idempotent ⟨[]⟩ "7" (by decide)

/-- C8: for every invite-stats response computed over a set of referred
users, `active + pending = total`. -/
theorem inviteStats_partition (now : Int) (rows : List RefUser) :
    (inviteStats now rows).2.1 + (inviteStats now rows).2.2 =
      (inviteStats now rows).1 := by
  have h := List.length_filter_le (refUserActive now) rows
  simp [inviteStats]
  omega

/-- C9 counterexample: in the `telegram.log` revisions the watch-ad
action decrements `ads_<gift>`: from a counter of 5 it produces 4, so
the counter after the operation is not ≥ its value before. -/
theorem watchAd_counterexample :
    watchAdTelegramLog 5 = 4 ∧ ¬(5 ≤ watchAdTelegramLog 5) := by
  decide

/-- C9 (amended): the ad-view counter stays non-negative under both
layouts, and only the `gifts`/`ad_views` revisions increase it — their
watch-ad adds exactly 1 — while the `telegram.log` revisions treat
`ads_<gift>` as a countdown that watch-ad decrements by 1, guarded so it
never drops below zero. -/
theorem watchAd_counter_update (v : Nat) (a : Int) (ha : 0 ≤ a) :
    watchAdViews v = v + 1 ∧ v ≤ watchAdViews v ∧
    0 ≤ watchAdTelegramLog a ∧ watchAdTelegramLog a ≤ a := by
  refine ⟨rfl, Nat.le_succ v, ?_, ?_⟩ <;>
    simp only [watchAdTelegramLog] <;> split <;> omega

/-- Witness for C9's amended statement at views 3 and counter 5. -/
theorem watchAd_counter_update_witness :
    watchAdViews 3 = 4 ∧ 3 ≤ watchAdViews 3 ∧
    0 ≤ watchAdTelegramLog 5 ∧ watchAdTelegramLog 5 ≤ 5 :=
  watchAd_counter_update 3 5 (by decide)

/-- C10: an invite-stats request whose store lookup fails or returns no
row yields `{total: 0, active: 0, pending: 0}` with HTTP 200, not an
error. -/
theorem inviteStats_default_zero (u : String) (res : FetchResult InviteRow)
    (h : res = .fetchErr ∨ res = .fetchOk []) :
    getInviteStats u res = (0, 0, 0) ∧ inviteStatsStatus = 200 := by
  rcases h with h | h <;> subst h <;> by_cases hu : u = "" <;>
    simp [getInviteStats, hu, inviteStatsStatus]

/-- Witness for C10 at a failed lookup. -/
theorem inviteStats_default_zero_witness :
    getInviteStats "1" .fetchErr = (0, 0, 0) ∧ inviteStatsStatus = 200 :=
  inviteStats_default_zero "1" .fetchErr (Or.inl rfl)
